import Mathlib

/-!
Verification of the parameter validation and construction subsystem of
`apps/simulation/parameters.py`: the value validators, the `Disposition`
and `Regions` value types, the `Parameters` aggregate, and the
`construct_parameters` adapter.

Numbers are modelled as rationals (`ℚ`), which embed the Python ints and
floats actually flowing through this code.  Fallible constructions return
`Except PyError`.
-/

/-- Error values raised by the modelled code: validator failures,
the `AssertionError` of `Parameters.__init__`, `ValueError` from `int()`
and `datetime.date`, and `IndexError` from list indexing. -/
inductive PyError where
  | validationError (constraint : String)
  | assertionError (msg : String)
  | valueError (msg : String)
  | indexError
deriving DecidableEq

/-- A `datetime.date` value: year, month, day fields.  Validity of the
three components is checked by `mkDate` (the `date(y, m, d)` constructor),
not by the record type itself. -/
structure PyDate where
  year : Int
  month : Int
  day : Int
deriving DecidableEq

/-- Gregorian leap-year rule used by `datetime.date`. -/
def isLeapYear (y : Int) : Bool :=
  y % 4 == 0 && (y % 100 != 0 || y % 400 == 0)

/-- Number of days in a month, as used by `datetime.date`. -/
def daysInMonth (y m : Int) : Int :=
  if m == 2 then (if isLeapYear y then 29 else 28)
  else if m == 4 || m == 6 || m == 9 || m == 11 then 30
  else 31

/-- Component validity for a `PyDate`: year in MINYEAR..MAXYEAR (1..9999),
month in 1..12, day in 1..days-in-month. -/
def isValidDate (d : PyDate) : Bool :=
  1 ≤ d.year && d.year ≤ 9999 &&
  1 ≤ d.month && d.month ≤ 12 &&
  1 ≤ d.day && d.day ≤ daysInMonth d.year d.month

/-- The `datetime.date(year, month, day)` constructor: checks year, then
month, then day, raising `ValueError` on the first out-of-range component. -/
def mkDate (y m d : Int) : Except PyError PyDate :=
  if 1 ≤ y ∧ y ≤ 9999 then
    if 1 ≤ m ∧ m ≤ 12 then
      if 1 ≤ d ∧ d ≤ daysInMonth y m then
        .ok ⟨y, m, d⟩
      else .error (.valueError "day is out of range for month")
    else .error (.valueError "month must be in 1..12")
  else .error (.valueError "year is out of range")

/-- Modelled from the spec: `validators.py` is imported by
`parameters.py` but absent from the supplied source.  `Positive(value)`
succeeds iff the value is ≥ 0, returning it unchanged. -/
def Positive (value : ℚ) : Except PyError ℚ :=
  if 0 ≤ value then .ok value else .error (.validationError "Positive")

/-- Modelled from the spec (`validators.py` absent from the source):
`StrictlyPositive(value)` succeeds iff the value is > 0, returning it
unchanged. -/
def StrictlyPositive (value : ℚ) : Except PyError ℚ :=
  if 0 < value then .ok value else .error (.validationError "StrictlyPositive")

/-- Modelled from the spec (`validators.py` absent from the source):
`OptionalStrictlyPositive(value)` succeeds on `None`, otherwise behaves
as `StrictlyPositive`. -/
def OptionalStrictlyPositive (value : Option ℚ) : Except PyError (Option ℚ) :=
  match value with
  | none => .ok none
  | some v => (StrictlyPositive v).map some

/-- Modelled from the spec (`validators.py` absent from the source):
`Rate(value)` succeeds iff the value lies in the closed interval [0, 1],
returning it unchanged. -/
def Rate (value : ℚ) : Except PyError ℚ :=
  if 0 ≤ value ∧ value ≤ 1 then .ok value else .error (.validationError "Rate")

/-- Modelled from the spec (`validators.py` absent from the source):
`Date(value)` succeeds iff the value is a valid calendar date. -/
def Date (value : PyDate) : Except PyError PyDate :=
  if isValidDate value then .ok value else .error (.validationError "Date")

/-- Modelled from the spec (`validators.py` absent from the source):
`OptionalDate(value)` succeeds on `None`, otherwise behaves as `Date`. -/
def OptionalDate (value : Option PyDate) : Except PyError (Option PyDate) :=
  match value with
  | none => .ok none
  | some v => (Date v).map some

/-- The `Disposition` namedtuple: `(rate, days)`. -/
structure Disposition where
  rate : ℚ
  days : ℚ
deriving DecidableEq

/-- A `Regions` object: its dynamic attribute dictionary, most recent
assignment first (so lookup takes the first match, as Python attribute
assignment overwrites). -/
structure Regions where
  attrs : List (String × ℚ)
deriving DecidableEq

/-- Python attribute lookup on a `Regions` instance. -/
def Regions.getattr (r : Regions) (name : String) : Option ℚ :=
  (r.attrs.find? (fun p => p.1 == name)).map Prod.snd

/-- `Regions.__init__`: iterate the keyword arguments in order, assigning
each as an attribute and accumulating a running total, then assign the
total to the `population` attribute last. -/
def Regions.init (kwargs : List (String × ℚ)) : Regions :=
  let st := kwargs.foldl
    (fun (st : List (String × ℚ) × ℚ) kv => (kv :: st.1, st.2 + kv.2))
    ([], 0)
  ⟨("population", st.2) :: st.1⟩

/-- Reading `region.population`: attribute lookup, with an arbitrary
fallback of 0 for the (unreachable for constructed instances) absent case. -/
def Regions.population (r : Regions) : ℚ :=
  (r.getattr "population").getD 0

/-- Sum of the values of a keyword-argument list. -/
def sumValues (kwargs : List (String × ℚ)) : ℚ :=
  kwargs.foldl (fun acc kv => acc + kv.2) 0

/-- The keyword arguments of `Parameters.__init__`, with the source's
default values.  `current_date` carries no default here: in the source its
default is `date.today()`, evaluated once at definition time; callers of
this model pass that date explicitly. -/
structure ParametersArgs where
  current_hospitalized : ℚ
  hospitalized : Disposition
  icu : Disposition
  relative_contact_rate : ℚ
  ventilated : Disposition
  current_date : PyDate
  date_first_hospitalized : Option PyDate := none
  doubling_time : Option ℚ := none
  infectious_days : ℚ := 14
  market_share : ℚ := 1
  max_y_axis : Option ℚ := none
  n_days : ℚ := 100
  population : Option ℚ := none
  recovered : ℚ := 0
  region : Option Regions := none
deriving DecidableEq

/-- The static `labels` mapping assigned by `Parameters.__init__`. -/
def parameterLabels : List (String × String) :=
  [("hospitalized", "Hospitalized"), ("icu", "ICU"), ("ventilated", "Ventilated"),
   ("day", "Day"), ("date", "Date"), ("susceptible", "Susceptible"),
   ("infected", "Infected"), ("recovered", "Recovered")]

/-- The attributes of a fully constructed `Parameters` instance. -/
structure Parameters where
  current_hospitalized : ℚ
  relative_contact_rate : ℚ
  hospitalized : Disposition
  icu : Disposition
  ventilated : Disposition
  region : Option Regions
  population : ℚ
  current_date : PyDate
  date_first_hospitalized : Option PyDate
  doubling_time : Option ℚ
  infectious_days : ℚ
  market_share : ℚ
  max_y_axis : Option ℚ
  n_days : ℚ
  recovered : ℚ
  labels : List (String × String)
  dispositions : List (String × Disposition)
deriving DecidableEq

/-- The `if region is not None and population is None / elif population
is not None / else raise AssertionError` chain of `Parameters.__init__`:
yields the stored `region` attribute and the validated population. -/
def resolvePopulation (region : Option Regions) (population : Option ℚ) :
    Except PyError (Option Regions × ℚ) :=
  match region, population with
  | some r, none => do
      let p ← StrictlyPositive (Regions.population r)
      pure (some r, p)
  | _, some pop => do
      let p ← StrictlyPositive pop
      pure (none, p)
  | none, none =>
      Except.error (.assertionError "population or regions must be provided.")

/-- `Parameters.__init__`: validators applied in source order; the
population source is resolved by `resolvePopulation`. -/
def Parameters.init (args : ParametersArgs) : Except PyError Parameters := do
  let current_hospitalized ← Positive args.current_hospitalized
  let relative_contact_rate ← Rate args.relative_contact_rate
  let _ ← Rate args.hospitalized.rate
  let _ ← Rate args.icu.rate
  let _ ← Rate args.ventilated.rate
  let _ ← StrictlyPositive args.hospitalized.days
  let _ ← StrictlyPositive args.icu.days
  let _ ← StrictlyPositive args.ventilated.days
  let rp ← resolvePopulation args.region args.population
  let current_date ← Date args.current_date
  let date_first_hospitalized ← OptionalDate args.date_first_hospitalized
  let doubling_time ← OptionalStrictlyPositive args.doubling_time
  let infectious_days ← StrictlyPositive args.infectious_days
  let market_share ← Rate args.market_share
  let max_y_axis ← OptionalStrictlyPositive args.max_y_axis
  let n_days ← StrictlyPositive args.n_days
  let recovered ← Positive args.recovered
  pure {
    current_hospitalized := current_hospitalized
    relative_contact_rate := relative_contact_rate
    hospitalized := args.hospitalized
    icu := args.icu
    ventilated := args.ventilated
    region := rp.1
    population := rp.2
    current_date := current_date
    date_first_hospitalized := date_first_hospitalized
    doubling_time := doubling_time
    infectious_days := infectious_days
    market_share := market_share
    max_y_axis := max_y_axis
    n_days := n_days
    recovered := recovered
    labels := parameterLabels
    dispositions := [("hospitalized", args.hospitalized), ("icu", args.icu),
      ("ventilated", args.ventilated)]
  }

/-- Python `str.split("-")`: split on every occurrence of the separator,
keeping empty pieces. -/
def splitDash : List Char → List Char → List String
  | [], acc => [String.mk acc.reverse]
  | c :: rest, acc =>
    if c = '-' then String.mk acc.reverse :: splitDash rest []
    else splitDash rest (c :: acc)

/-- `s.split("-")` on a Python string. -/
def pySplit (s : String) : List String :=
  splitDash s.toList []

/-- Accumulate a decimal value over digit characters; `none` on the first
non-digit character. -/
def digitsToVal : List Char → Nat → Option Nat
  | [], acc => some acc
  | c :: rest, acc =>
    if c.isDigit then digitsToVal rest (acc * 10 + (c.toNat - 48)) else none

/-- A nonempty all-digit character list, as a number. -/
def parseDigits (cs : List Char) : Option Nat :=
  if cs.isEmpty then none else digitsToVal cs 0

/-- Strip leading and trailing whitespace from a character list. -/
def trimChars (cs : List Char) : List Char :=
  ((cs.dropWhile Char.isWhitespace).reverse.dropWhile Char.isWhitespace).reverse

/-- Python's built-in `int(s)` on a decimal string: surrounding whitespace
tolerated, optional sign, then a nonempty run of digits.  (The builtin
additionally tolerates underscores between digits, which this model
omits.)  Raises `ValueError` otherwise. -/
def pyInt (s : String) : Except PyError Int :=
  let r : Option Int :=
    match trimChars s.toList with
    | '+' :: rest => (parseDigits rest).map Int.ofNat
    | '-' :: rest => (parseDigits rest).map (fun n => -(Int.ofNat n : Int))
    | cs => (parseDigits cs).map Int.ofNat
  match r with
  | some n => .ok n
  | none => .error (.valueError "invalid literal for int() with base 10")

/-- Python list indexing `l[i]`: `IndexError` when out of range. -/
def pyIndex (l : List String) (i : Nat) : Except PyError String :=
  match l.get? i with
  | some s => .ok s
  | none => .error .indexError

/-- `date(int(split_date[0]), int(split_date[1]), int(split_date[2]))`
evaluated left to right on the split pieces. -/
def parseParts (parts : List String) : Except PyError PyDate := do
  let s0 ← pyIndex parts 0
  let y ← pyInt s0
  let s1 ← pyIndex parts 1
  let m ← pyInt s1
  let s2 ← pyIndex parts 2
  let d ← pyInt s2
  mkDate y m d

/-- The date-of-first-hospitalization parse performed by
`construct_parameters`: split the string on `-` and build a date from the
first three pieces. -/
def parseFirstHospitalized (s : String) : Except PyError PyDate :=
  parseParts (pySplit s)

/-- The untyped request mapping consumed by `construct_parameters`:
exactly the keys it reads, each optional.  `request_data.get(k, d)`
becomes `(field).getD d`. -/
structure RequestData where
  dateOfFirstHospitalizedCase : Option String := none
  population : Option ℚ := none
  currentHospitalized : Option ℚ := none
  hospitalMarketShare : Option ℚ := none
  hospitalizationPercent : Option ℚ := none
  averageHospitalLengthOfStay : Option ℚ := none
  icuNeedPercent : Option ℚ := none
  averageDaysInICU : Option ℚ := none
  infectiousDays : Option ℚ := none
  socialDistancing : Option ℚ := none
  ventilationNeedPercent : Option ℚ := none
  averageDaysOnVentilator : Option ℚ := none
  numberOfDaysToProject : Option ℚ := none
deriving DecidableEq

/-- The date string `construct_parameters` parses:
`request_data.get("dateOfFirstHospitalizedCase", "2020-7-3")`. -/
def requestDateString (request_data : RequestData) : String :=
  request_data.dateOfFirstHospitalizedCase.getD "2020-7-3"

/-- `construct_parameters(request_data)`: parse the first-hospitalized
date, assemble the association map with its per-key defaults, and invoke
`Parameters.__init__`.  `today` is the definition-time `date.today()`
default of `current_date`, passed explicitly. -/
def construct_parameters (today : PyDate) (request_data : RequestData) :
    Except PyError Parameters := do
  let dfh ← parseFirstHospitalized (requestDateString request_data)
  Parameters.init {
    population := some (request_data.population.getD 10000)
    current_hospitalized := request_data.currentHospitalized.getD 0
    market_share := request_data.hospitalMarketShare.getD 0
    date_first_hospitalized := some dfh
    hospitalized := ⟨request_data.hospitalizationPercent.getD 0,
      request_data.averageHospitalLengthOfStay.getD 0⟩
    icu := ⟨request_data.icuNeedPercent.getD 0,
      request_data.averageDaysInICU.getD 0⟩
    infectious_days := request_data.infectiousDays.getD 0
    relative_contact_rate := request_data.socialDistancing.getD 0
    ventilated := ⟨request_data.ventilationNeedPercent.getD 0,
      request_data.averageDaysOnVentilator.getD 0⟩
    n_days := request_data.numberOfDaysToProject.getD 100
    current_date := today
  }

instance {ε α : Type} [DecidableEq ε] [DecidableEq α] : DecidableEq (Except ε α)
  | .ok a, .ok b =>
    if h : a = b then .isTrue (by rw [h]) else .isFalse (fun he => h (Except.ok.inj he))
  | .ok _, .error _ => .isFalse (fun he => Except.noConfusion he)
  | .error _, .ok _ => .isFalse (fun he => Except.noConfusion he)
  | .error e, .error f =>
    if h : e = f then .isTrue (by rw [h]) else .isFalse (fun he => h (Except.error.inj he))

/-- The attribute projection of a successful construction result. -/
def resultRegion (e : Except PyError Parameters) : Option (Option Regions) :=
  e.toOption.map Parameters.region

/-- The population projection of a successful construction result. -/
def resultPopulation (e : Except PyError Parameters) : Option ℚ :=
  e.toOption.map Parameters.population

theorem sumValues_foldl_shift (l : List (String × ℚ)) (a : ℚ) :
    l.foldl (fun acc kv => acc + kv.2) a = a + sumValues l := by
  induction l generalizing a with
  | nil => simp [sumValues]
  | cons kv t ih =>
    simp only [List.foldl, sumValues] at *
    rw [ih (a + kv.2), ih (0 + kv.2)]
    ring

theorem Regions_init_attrs (kwargs : List (String × ℚ)) :
    Regions.init kwargs = ⟨("population", sumValues kwargs) :: kwargs.reverse⟩ := by
  suffices h : ∀ (acc : List (String × ℚ) × ℚ),
      kwargs.foldl (fun st kv => (kv :: st.1, st.2 + kv.2)) acc =
        (kwargs.reverse ++ acc.1, acc.2 + sumValues kwargs) by
    simp only [Regions.init, h ([], 0)]
    simp
  intro acc
  induction kwargs generalizing acc with
  | nil => simp [sumValues]
  | cons kv t ih =>
    simp only [List.foldl, List.reverse_cons, sumValues] at *
    rw [ih]
    simp only [List.append_assoc, List.cons_append, List.nil_append, Prod.mk.injEq,
      true_and]
    rw [sumValues_foldl_shift t (0 + kv.2)]
    simp only [sumValues]
    ring

theorem Regions_getattr_population (kwargs : List (String × ℚ)) :
    (Regions.init kwargs).getattr "population" = some (sumValues kwargs) := by
  rw [Regions_init_attrs]
  simp [Regions.getattr, List.find?]

theorem Regions_population_init (kwargs : List (String × ℚ)) :
    (Regions.init kwargs).population = sumValues kwargs := by
  simp [Regions.population, Regions_getattr_population]

theorem find?_of_mem_nodup (k : String) (v : ℚ) :
    ∀ l : List (String × ℚ), (l.map Prod.fst).Nodup → (k, v) ∈ l →
      l.find? (fun p => p.1 == k) = some (k, v) := by
  intro l
  induction l with
  | nil => simp
  | cons a t ih =>
    intro hnd hmem
    simp only [List.map_cons, List.nodup_cons] at hnd
    rcases List.mem_cons.mp hmem with h | h
    · rw [← h]
      simp [List.find?]
    · have hak : (a.1 == k) = false := by
        apply beq_eq_false_iff_ne.mpr
        intro he
        exact hnd.1 (he ▸ List.mem_map.mpr ⟨(k, v), h, rfl⟩)
      rw [List.find?, hak, ih hnd.2 h]

theorem Regions_getattr_other (kwargs : List (String × ℚ)) (k : String) (v : ℚ)
    (hk : k ≠ "population") (hnd : (kwargs.map Prod.fst).Nodup)
    (hmem : (k, v) ∈ kwargs) :
    (Regions.init kwargs).getattr k = some v := by
  rw [Regions_init_attrs]
  simp only [Regions.getattr]
  have hpk : (("population" : String) == k) = false :=
    beq_eq_false_iff_ne.mpr (fun he => hk he.symm)
  rw [List.find?, hpk,
    find?_of_mem_nodup k v kwargs.reverse
      (by rw [List.map_reverse, List.nodup_reverse]; exact hnd)
      (List.mem_reverse.mpr hmem)]
  rfl

theorem exceptBindOk {ε α β : Type} (a : α) (f : α → Except ε β) :
    (Except.ok a : Except ε α) >>= f = f a := rfl

theorem exceptBindErr {ε α β : Type} (e : ε) (f : α → Except ε β) :
    (Except.error e : Except ε α) >>= f = .error e := rfl

theorem exceptBindOkIff {ε α β : Type} (x : Except ε α) (f : α → Except ε β) (b : β) :
    x >>= f = .ok b ↔ ∃ a, x = .ok a ∧ f a = .ok b := by
  cases x with
  | ok a => simp [exceptBindOk]
  | error e => simp [exceptBindErr]

theorem Positive_ok {v : ℚ} (h : 0 ≤ v) : Positive v = .ok v := by
  simp [Positive, h]

theorem Rate_ok {v : ℚ} (h0 : 0 ≤ v) (h1 : v ≤ 1) : Rate v = .ok v := by
  simp [Rate, h0, h1]

theorem StrictlyPositive_ok {v : ℚ} (h : 0 < v) : StrictlyPositive v = .ok v := by
  simp [StrictlyPositive, h]

theorem Date_ok {d : PyDate} (h : isValidDate d = true) : Date d = .ok d := by
  simp [Date, h]

/-- Validity of an optional strictly positive value. -/
def optPosB : Option ℚ → Bool
  | none => true
  | some v => decide (0 < v)

/-- Validity of an optional date value. -/
def optDateB : Option PyDate → Bool
  | none => true
  | some d => isValidDate d

theorem OptionalStrictlyPositive_ok {o : Option ℚ} (h : optPosB o = true) :
    OptionalStrictlyPositive o = .ok o := by
  cases o with
  | none => rfl
  | some v =>
    simp only [optPosB, decide_eq_true_eq] at h
    simp [OptionalStrictlyPositive, StrictlyPositive_ok h, Except.map]

theorem OptionalDate_ok {o : Option PyDate} (h : optDateB o = true) :
    OptionalDate o = .ok o := by
  cases o with
  | none => rfl
  | some d =>
    simp only [optDateB] at h
    simp [OptionalDate, Date_ok h, Except.map]

/-- All the per-field validations of `Parameters.__init__` other than the
population source: each constraint the constructor checks before and
after resolving the population. -/
def ValidCommon (args : ParametersArgs) : Prop :=
  0 ≤ args.current_hospitalized ∧
  (0 ≤ args.relative_contact_rate ∧ args.relative_contact_rate ≤ 1) ∧
  (0 ≤ args.hospitalized.rate ∧ args.hospitalized.rate ≤ 1) ∧
  (0 ≤ args.icu.rate ∧ args.icu.rate ≤ 1) ∧
  (0 ≤ args.ventilated.rate ∧ args.ventilated.rate ≤ 1) ∧
  0 < args.hospitalized.days ∧ 0 < args.icu.days ∧ 0 < args.ventilated.days ∧
  isValidDate args.current_date = true ∧
  optDateB args.date_first_hospitalized = true ∧
  optPosB args.doubling_time = true ∧
  0 < args.infectious_days ∧
  (0 ≤ args.market_share ∧ args.market_share ≤ 1) ∧
  optPosB args.max_y_axis = true ∧
  0 < args.n_days ∧ 0 ≤ args.recovered

instance (args : ParametersArgs) : Decidable (ValidCommon args) := by
  unfold ValidCommon
  infer_instance

/-- The `Parameters` record produced by a successful construction, given
the resolved population source. -/
def resolvedParams (args : ParametersArgs) (reg : Option Regions) (pop : ℚ) :
    Parameters :=
  { current_hospitalized := args.current_hospitalized
    relative_contact_rate := args.relative_contact_rate
    hospitalized := args.hospitalized
    icu := args.icu
    ventilated := args.ventilated
    region := reg
    population := pop
    current_date := args.current_date
    date_first_hospitalized := args.date_first_hospitalized
    doubling_time := args.doubling_time
    infectious_days := args.infectious_days
    market_share := args.market_share
    max_y_axis := args.max_y_axis
    n_days := args.n_days
    recovered := args.recovered
    labels := parameterLabels
    dispositions := [("hospitalized", args.hospitalized), ("icu", args.icu),
      ("ventilated", args.ventilated)] }

theorem resolvePopulation_pop (reg : Option Regions) {p : ℚ} (hp : 0 < p) :
    resolvePopulation reg (some p) = .ok (none, p) := by
  cases reg <;>
    simp [resolvePopulation, StrictlyPositive_ok hp, exceptBindOk, pure, Except.pure]

theorem resolvePopulation_region (r : Regions) (hp : 0 < r.population) :
    resolvePopulation (some r) none = .ok (some r, r.population) := by
  simp [resolvePopulation, StrictlyPositive_ok hp, exceptBindOk, pure, Except.pure]

theorem resolvePopulation_neither :
    resolvePopulation none none =
      .error (.assertionError "population or regions must be provided.") := rfl

theorem init_ok_population (args : ParametersArgs) (hv : ValidCommon args)
    (p : ℚ) (hpop : args.population = some p) (hp : 0 < p) :
    Parameters.init args = .ok (resolvedParams args none p) := by
  obtain ⟨h1, h2, h3, h4, h5, h6, h7, h8, h9, h10, h11, h12, h13, h14, h15, h16⟩ := hv
  simp only [Parameters.init, Positive_ok h1, Positive_ok h16, Rate_ok h2.1 h2.2,
    Rate_ok h3.1 h3.2, Rate_ok h4.1 h4.2, Rate_ok h5.1 h5.2, StrictlyPositive_ok h6,
    StrictlyPositive_ok h7, StrictlyPositive_ok h8, Date_ok h9, OptionalDate_ok h10,
    OptionalStrictlyPositive_ok h11, StrictlyPositive_ok h12, Rate_ok h13.1 h13.2,
    OptionalStrictlyPositive_ok h14, StrictlyPositive_ok h15, hpop,
    resolvePopulation_pop args.region hp, exceptBindOk]
  simp [resolvedParams, pure, Except.pure]

theorem init_ok_region (args : ParametersArgs) (hv : ValidCommon args)
    (r : Regions) (hreg : args.region = some r) (hpop : args.population = none)
    (hp : 0 < r.population) :
    Parameters.init args = .ok (resolvedParams args (some r) r.population) := by
  obtain ⟨h1, h2, h3, h4, h5, h6, h7, h8, h9, h10, h11, h12, h13, h14, h15, h16⟩ := hv
  simp only [Parameters.init, Positive_ok h1, Positive_ok h16, Rate_ok h2.1 h2.2,
    Rate_ok h3.1 h3.2, Rate_ok h4.1 h4.2, Rate_ok h5.1 h5.2, StrictlyPositive_ok h6,
    StrictlyPositive_ok h7, StrictlyPositive_ok h8, Date_ok h9, OptionalDate_ok h10,
    OptionalStrictlyPositive_ok h11, StrictlyPositive_ok h12, Rate_ok h13.1 h13.2,
    OptionalStrictlyPositive_ok h14, StrictlyPositive_ok h15, hpop, hreg,
    resolvePopulation_region r hp, exceptBindOk]
  simp [resolvedParams, pure, Except.pure]

theorem init_err_neither (args : ParametersArgs) (hv : ValidCommon args)
    (hreg : args.region = none) (hpop : args.population = none) :
    Parameters.init args =
      .error (.assertionError "population or regions must be provided.") := by
  obtain ⟨h1, h2, h3, h4, h5, h6, h7, h8, _, _, _, _, _, _, _, _⟩ := hv
  simp only [Parameters.init, Positive_ok h1, Rate_ok h2.1 h2.2, Rate_ok h3.1 h3.2,
    Rate_ok h4.1 h4.2, Rate_ok h5.1 h5.2, StrictlyPositive_ok h6, StrictlyPositive_ok h7,
    StrictlyPositive_ok h8, hpop, hreg, resolvePopulation_neither, exceptBindOk]
  simp [exceptBindErr]

theorem Positive_ok_inv {v w : ℚ} (h : Positive v = .ok w) : 0 ≤ v ∧ w = v := by
  by_cases hc : 0 ≤ v
  · rw [Positive, if_pos hc] at h
    exact ⟨hc, (Except.ok.inj h).symm⟩
  · rw [Positive, if_neg hc] at h
    cases h

theorem Rate_ok_inv {v w : ℚ} (h : Rate v = .ok w) : (0 ≤ v ∧ v ≤ 1) ∧ w = v := by
  by_cases hc : 0 ≤ v ∧ v ≤ 1
  · rw [Rate, if_pos hc] at h
    exact ⟨hc, (Except.ok.inj h).symm⟩
  · rw [Rate, if_neg hc] at h
    cases h

theorem StrictlyPositive_ok_inv {v w : ℚ} (h : StrictlyPositive v = .ok w) :
    0 < v ∧ w = v := by
  by_cases hc : 0 < v
  · rw [StrictlyPositive, if_pos hc] at h
    exact ⟨hc, (Except.ok.inj h).symm⟩
  · rw [StrictlyPositive, if_neg hc] at h
    cases h

theorem Date_ok_inv {v w : PyDate} (h : Date v = .ok w) :
    isValidDate v = true ∧ w = v := by
  by_cases hc : isValidDate v = true
  · rw [Date, if_pos hc] at h
    exact ⟨hc, (Except.ok.inj h).symm⟩
  · rw [Date, if_neg hc] at h
    cases h

theorem init_ok_dispositions_inv (args : ParametersArgs) (q : Parameters)
    (h : Parameters.init args = .ok q) :
    q.hospitalized = args.hospitalized ∧ q.icu = args.icu ∧
    q.ventilated = args.ventilated ∧
    q.dispositions = [("hospitalized", args.hospitalized), ("icu", args.icu),
      ("ventilated", args.ventilated)] ∧
    (0 ≤ args.hospitalized.rate ∧ args.hospitalized.rate ≤ 1) ∧
    (0 ≤ args.icu.rate ∧ args.icu.rate ≤ 1) ∧
    (0 ≤ args.ventilated.rate ∧ args.ventilated.rate ≤ 1) ∧
    0 < args.hospitalized.days ∧ 0 < args.icu.days ∧ 0 < args.ventilated.days := by
  rw [Parameters.init] at h
  rw [exceptBindOkIff] at h
  obtain ⟨ch, hch, h⟩ := h
  rw [exceptBindOkIff] at h
  obtain ⟨rcr, hrcr, h⟩ := h
  rw [exceptBindOkIff] at h
  obtain ⟨hr1, hhr1, h⟩ := h
  rw [exceptBindOkIff] at h
  obtain ⟨hr2, hhr2, h⟩ := h
  rw [exceptBindOkIff] at h
  obtain ⟨hr3, hhr3, h⟩ := h
  rw [exceptBindOkIff] at h
  obtain ⟨hd1, hhd1, h⟩ := h
  rw [exceptBindOkIff] at h
  obtain ⟨hd2, hhd2, h⟩ := h
  rw [exceptBindOkIff] at h
  obtain ⟨hd3, hhd3, h⟩ := h
  rw [exceptBindOkIff] at h
  obtain ⟨rp, hrp, h⟩ := h
  rw [exceptBindOkIff] at h
  obtain ⟨cd, hcd, h⟩ := h
  rw [exceptBindOkIff] at h
  obtain ⟨dfh, hdfh, h⟩ := h
  rw [exceptBindOkIff] at h
  obtain ⟨dt, hdt, h⟩ := h
  rw [exceptBindOkIff] at h
  obtain ⟨infd, hinfd, h⟩ := h
  rw [exceptBindOkIff] at h
  obtain ⟨ms, hms, h⟩ := h
  rw [exceptBindOkIff] at h
  obtain ⟨mya, hmya, h⟩ := h
  rw [exceptBindOkIff] at h
  obtain ⟨nd, hnd, h⟩ := h
  rw [exceptBindOkIff] at h
  obtain ⟨rec, hrec, h⟩ := h
  replace h := (Except.ok.inj h).symm
  subst h
  exact ⟨rfl, rfl, rfl, rfl, (Rate_ok_inv hhr1).1, (Rate_ok_inv hhr2).1,
    (Rate_ok_inv hhr3).1, (StrictlyPositive_ok_inv hhd1).1,
    (StrictlyPositive_ok_inv hhd2).1, (StrictlyPositive_ok_inv hhd3).1⟩

theorem resolvePopulation_pop_inv (reg : Option Regions) (p : ℚ)
    (rp : Option Regions × ℚ) (h : resolvePopulation reg (some p) = .ok rp) :
    0 < p ∧ rp = (none, p) := by
  cases reg with
  | none =>
    simp only [resolvePopulation] at h
    rw [exceptBindOkIff] at h
    obtain ⟨a, ha, h⟩ := h
    obtain ⟨hpos, hav⟩ := StrictlyPositive_ok_inv ha
    subst hav
    simp only [pure, Except.pure, Except.ok.injEq] at h
    exact ⟨hpos, h.symm⟩
  | some r =>
    simp only [resolvePopulation] at h
    rw [exceptBindOkIff] at h
    obtain ⟨a, ha, h⟩ := h
    obtain ⟨hpos, hav⟩ := StrictlyPositive_ok_inv ha
    subst hav
    simp only [pure, Except.pure, Except.ok.injEq] at h
    exact ⟨hpos, h.symm⟩

theorem init_ok_pop_inv (args : ParametersArgs) (p : ℚ) (q : Parameters)
    (hpop : args.population = some p) (h : Parameters.init args = .ok q) :
    q.region = none ∧ q.population = p := by
  rw [Parameters.init] at h
  rw [exceptBindOkIff] at h
  obtain ⟨ch, hch, h⟩ := h
  rw [exceptBindOkIff] at h
  obtain ⟨rcr, hrcr, h⟩ := h
  rw [exceptBindOkIff] at h
  obtain ⟨hr1, hhr1, h⟩ := h
  rw [exceptBindOkIff] at h
  obtain ⟨hr2, hhr2, h⟩ := h
  rw [exceptBindOkIff] at h
  obtain ⟨hr3, hhr3, h⟩ := h
  rw [exceptBindOkIff] at h
  obtain ⟨hd1, hhd1, h⟩ := h
  rw [exceptBindOkIff] at h
  obtain ⟨hd2, hhd2, h⟩ := h
  rw [exceptBindOkIff] at h
  obtain ⟨hd3, hhd3, h⟩ := h
  rw [exceptBindOkIff] at h
  obtain ⟨rp, hrp, h⟩ := h
  rw [hpop] at hrp
  obtain ⟨hp, hrpv⟩ := resolvePopulation_pop_inv args.region p rp hrp
  subst hrpv
  rw [exceptBindOkIff] at h
  obtain ⟨cd, hcd, h⟩ := h
  rw [exceptBindOkIff] at h
  obtain ⟨dfh, hdfh, h⟩ := h
  rw [exceptBindOkIff] at h
  obtain ⟨dt, hdt, h⟩ := h
  rw [exceptBindOkIff] at h
  obtain ⟨infd, hinfd, h⟩ := h
  rw [exceptBindOkIff] at h
  obtain ⟨ms, hms, h⟩ := h
  rw [exceptBindOkIff] at h
  obtain ⟨mya, hmya, h⟩ := h
  rw [exceptBindOkIff] at h
  obtain ⟨nd, hnd, h⟩ := h
  rw [exceptBindOkIff] at h
  obtain ⟨rec, hrec, h⟩ := h
  replace h := (Except.ok.inj h).symm
  subst h
  exact ⟨rfl, rfl⟩

/-- A fixed valid calendar date standing in for the definition-time
`date.today()` in concrete instances. -/
def sampleToday : PyDate := ⟨2020, 7, 3⟩

/-- A `Regions` instance built from one named population. -/
def regionNorth : Regions := Regions.init [("north", 500)]

/-- Arguments with an explicit population, no region, and every field
valid. -/
def argsGood : ParametersArgs :=
  { current_hospitalized := 1
    hospitalized := ⟨0, 7⟩
    icu := ⟨0, 9⟩
    ventilated := ⟨1, 10⟩
    relative_contact_rate := 0
    current_date := sampleToday
    population := some 1000 }

/-- The same arguments with a region supplied as well as the population. -/
def argsBoth : ParametersArgs :=
  { argsGood with region := some regionNorth }

/-- The same arguments with neither population nor region supplied. -/
def argsNeither : ParametersArgs :=
  { argsGood with population := none }

/-- Arguments identical to `argsGood` except for an out-of-range
hospitalized rate. -/
def argsBadRate : ParametersArgs :=
  { argsGood with hospitalized := ⟨2, 7⟩ }

/-- A request supplying positive stay durations so that construction can
succeed. -/
def requestWithValidDays : RequestData :=
  { averageHospitalLengthOfStay := some 7
    averageDaysInICU := some 9
    averageDaysOnVentilator := some 10
    infectiousDays := some 14 }

/-- The same request with a date string that splits into four pieces. -/
def requestFourPieces : RequestData :=
  { requestWithValidDays with dateOfFirstHospitalizedCase := some "2021-1-2-3" }

/-- A request whose date string carries month 13. -/
def requestBadMonth : RequestData :=
  { dateOfFirstHospitalizedCase := some "2021-13-1" }

/-- The instance `Parameters.__init__` produces from `argsGood`. -/
def paramsGoodResult : Parameters :=
  { current_hospitalized := 1
    relative_contact_rate := 0
    hospitalized := ⟨0, 7⟩
    icu := ⟨0, 9⟩
    ventilated := ⟨1, 10⟩
    region := none
    population := 1000
    current_date := sampleToday
    date_first_hospitalized := none
    doubling_time := none
    infectious_days := 14
    market_share := 1
    max_y_axis := none
    n_days := 100
    recovered := 0
    labels := parameterLabels
    dispositions := [("hospitalized", ⟨0, 7⟩), ("icu", ⟨0, 9⟩),
      ("ventilated", ⟨1, 10⟩)] }

/-- C1 (counterexample): constructing `Parameters` with both a non-absent
region and a non-absent population does not fail — the `elif population
is not None` branch accepts it, so the claim that it raises a
`ConfigurationError` is false at this input. -/
theorem population_xor_counterexample :
    argsBoth.region.isSome = true ∧ argsBoth.population.isSome = true ∧
    (Parameters.init argsBoth).isOk = true := by
  refine ⟨rfl, rfl, ?_⟩
  decide

/-- C1 (amended): supplying neither population source fails construction
with the assertion (configuration) error, while a supplied `population`
always resolves through the population branch — even alongside a
non-absent `region` — storing `region` as absent and the explicit value
as the population. -/
theorem population_source_resolution (args : ParametersArgs)
    (hv : ValidCommon args) :
    (args.region = none → args.population = none →
      Parameters.init args =
        .error (.assertionError "population or regions must be provided.")) ∧
    (∀ p : ℚ, args.population = some p → 0 < p →
      resultRegion (Parameters.init args) = some none ∧
      resultPopulation (Parameters.init args) = some p) := by
  constructor
  · intro hreg hpop
    exact init_err_neither args hv hreg hpop
  · intro p hpop hp
    rw [init_ok_population args hv p hpop hp]
    simp [resultRegion, resultPopulation, Except.toOption, resolvedParams]

/-- C1 (witness): the amended statement at concrete inputs — neither
source fails, both sources succeed via the population branch. -/
theorem population_source_resolution_witness :
    Parameters.init argsNeither =
      .error (.assertionError "population or regions must be provided.") ∧
    (resultRegion (Parameters.init argsBoth) = some none ∧
      resultPopulation (Parameters.init argsBoth) = some 1000) :=
  ⟨(population_source_resolution argsNeither (by decide)).1 rfl rfl,
   (population_source_resolution argsBoth (by decide)).2 1000 rfl (by decide)⟩

/-- C2 (counterexample): `construct_parameters` on the empty mapping does
not succeed with the stated defaults: it fails with the
`StrictlyPositive` validation error, because the defaulted dispositions
have `days = 0`. -/
theorem construct_parameters_empty_counterexample :
    construct_parameters sampleToday {} =
      .error (.validationError "StrictlyPositive") := rfl

/-- C2 (amended): for every definition-time current date,
`construct_parameters` on the empty mapping fails with the
`StrictlyPositive` validation error raised on `hospitalized.days = 0`,
the first zero default to be validated. -/
theorem construct_parameters_empty_fails (today : PyDate) :
    construct_parameters today {} =
      .error (.validationError "StrictlyPositive") := rfl

/-- C3 (counterexample): a date string that splits into four pieces has a
wrong component count, yet `construct_parameters` does not fail with a
date error — the extra piece is ignored and construction succeeds. -/
theorem date_component_count_counterexample :
    (pySplit (requestDateString requestFourPieces)).length = 4 ∧
    (construct_parameters sampleToday requestFourPieces).isOk = true := by
  constructor
  · decide
  · decide

/-- C3 (amended): a failure of the date parse — possible exactly when the
string splits into fewer than three pieces, or one of the first three
pieces is non-numeric, or the parsed components are out of range —
propagates out of `construct_parameters` unchanged; splitting into fewer
than three pieces always fails the parse; and `"2021-13-1"` fails with
the invalid-month error. -/
theorem date_parse_failure_propagates (today : PyDate) (req : RequestData)
    (e : PyError)
    (h : parseFirstHospitalized (requestDateString req) = .error e) :
    construct_parameters today req = .error e ∧
    (∀ parts : List String, parts.length < 3 → (parseParts parts).isOk = false) ∧
    parseFirstHospitalized "2021-13-1" =
      .error (.valueError "month must be in 1..12") := by
  refine ⟨?_, ?_, by decide⟩
  · rw [construct_parameters, parseFirstHospitalized] at *
    rw [h, exceptBindErr]
  · intro parts hlen
    rcases parts with _ | ⟨s0, _ | ⟨s1, _ | ⟨s2, rest⟩⟩⟩
    · rfl
    · cases h0 : pyInt s0 <;>
        simp [parseParts, pyIndex, List.get?, h0, exceptBindOk, exceptBindErr,
          Except.isOk, Except.toBool]
    · cases h0 : pyInt s0 <;> cases h1 : pyInt s1 <;>
        simp [parseParts, pyIndex, List.get?, h0, h1, exceptBindOk, exceptBindErr,
          Except.isOk, Except.toBool]
    · simp only [List.length_cons] at hlen
      omega

/-- C3 (witness): the amended statement applied at the concrete
month-13 request. -/
theorem date_parse_failure_propagates_witness :
    construct_parameters sampleToday requestBadMonth =
      .error (.valueError "month must be in 1..12") :=
  (date_parse_failure_propagates sampleToday requestBadMonth
    (.valueError "month must be in 1..12") (by decide)).1

/-- C4: constructing `Parameters` with `population = 1000`, `region`
absent, and every other input valid succeeds and yields an instance with
population 1000 and region absent. -/
theorem params_explicit_population_1000 (args : ParametersArgs)
    (hv : ValidCommon args) (hpop : args.population = some 1000)
    (hreg : args.region = none) :
    (Parameters.init args).isOk = true ∧
    resultPopulation (Parameters.init args) = some 1000 ∧
    resultRegion (Parameters.init args) = some none := by
  rw [init_ok_population args hv 1000 hpop (by norm_num)]
  simp [resultRegion, resultPopulation, Except.toOption, Except.isOk,
    Except.toBool, resolvedParams]

/-- C4 (witness): the concrete valid argument set `argsGood`. -/
theorem params_explicit_population_1000_witness :
    (Parameters.init argsGood).isOk = true ∧
    resultPopulation (Parameters.init argsGood) = some 1000 ∧
    resultRegion (Parameters.init argsGood) = some none :=
  params_explicit_population_1000 argsGood (by decide) rfl rfl

/-- C5 (counterexample): when a keyword argument is itself named
`population`, that name is not accessible with its supplied value — the
running total assigned last overwrites it — so the claim that every
supplied name reads back its supplied value is false at this input. -/
theorem regions_population_key_counterexample :
    ¬ ((Regions.init [("population", 5), ("b", 1)]).getattr "population" =
      some 5) := by
  rw [Regions_getattr_population]
  simp only [sumValues, List.foldl, Option.some.injEq]
  norm_num

/-- C5 (amended): the `population` attribute of a constructed `Regions`
equals the sum of all supplied values, and every supplied name other
than `population` itself is accessible with its supplied value (for
distinct keyword names, as Python keyword arguments are). -/
theorem regions_population_sum (kwargs : List (String × ℚ))
    (hnd : (kwargs.map Prod.fst).Nodup) :
    (Regions.init kwargs).getattr "population" = some (sumValues kwargs) ∧
    (∀ k v, (k, v) ∈ kwargs → k ≠ "population" →
      (Regions.init kwargs).getattr k = some v) :=
  ⟨Regions_getattr_population kwargs,
   fun k v hmem hk => Regions_getattr_other kwargs k v hk hnd hmem⟩

/-- C5 (witness): `Regions(a=10, b=20, c=5)` has population 35 and each
name reads back its value. -/
theorem regions_population_sum_witness :
    (Regions.init [("a", 10), ("b", 20), ("c", 5)]).getattr "population" =
      some 35 ∧
    (Regions.init [("a", 10), ("b", 20), ("c", 5)]).getattr "a" = some 10 ∧
    (Regions.init [("a", 10), ("b", 20), ("c", 5)]).getattr "b" = some 20 ∧
    (Regions.init [("a", 10), ("b", 20), ("c", 5)]).getattr "c" = some 5 := by
  obtain ⟨h1, h2⟩ :=
    regions_population_sum [("a", 10), ("b", 20), ("c", 5)] (by decide)
  refine ⟨?_, ?_, ?_, ?_⟩
  · rw [h1]
    simp only [sumValues, List.foldl, Option.some.injEq]
    norm_num
  · exact h2 "a" 10 (by decide) (by decide)
  · exact h2 "b" 20 (by decide) (by decide)
  · exact h2 "c" 5 (by decide) (by decide)

/-- C6: a successful construction stores the three dispositions
unchanged (both as attributes and in the lookup mapping) and implies all
six disposition validations passed; consequently construction fails
whenever any disposition rate lies outside [0,1] or any days is not
strictly positive. -/
theorem params_dispositions_validated (args : ParametersArgs) :
    (∀ q, Parameters.init args = .ok q →
      q.hospitalized = args.hospitalized ∧ q.icu = args.icu ∧
      q.ventilated = args.ventilated ∧
      q.dispositions = [("hospitalized", args.hospitalized), ("icu", args.icu),
        ("ventilated", args.ventilated)] ∧
      (0 ≤ args.hospitalized.rate ∧ args.hospitalized.rate ≤ 1) ∧
      (0 ≤ args.icu.rate ∧ args.icu.rate ≤ 1) ∧
      (0 ≤ args.ventilated.rate ∧ args.ventilated.rate ≤ 1) ∧
      0 < args.hospitalized.days ∧ 0 < args.icu.days ∧
      0 < args.ventilated.days) ∧
    (¬ ((0 ≤ args.hospitalized.rate ∧ args.hospitalized.rate ≤ 1) ∧
        (0 ≤ args.icu.rate ∧ args.icu.rate ≤ 1) ∧
        (0 ≤ args.ventilated.rate ∧ args.ventilated.rate ≤ 1) ∧
        0 < args.hospitalized.days ∧ 0 < args.icu.days ∧
        0 < args.ventilated.days) →
      (Parameters.init args).isOk = false) := by
  constructor
  · intro q hq
    exact init_ok_dispositions_inv args q hq
  · intro hbad
    cases hok : Parameters.init args with
    | ok q =>
      exfalso
      obtain ⟨_, _, _, _, c5, c6, c7, c8, c9, c10⟩ :=
        init_ok_dispositions_inv args q hok
      exact hbad ⟨c5, c6, c7, c8, c9, c10⟩
    | error e => rfl

/-- C6 (witness): a hospitalized rate of 2 makes construction fail. -/
theorem params_dispositions_validated_witness :
    (Parameters.init argsBadRate).isOk = false :=
  (params_dispositions_validated argsBadRate).2 (by decide)

/-- C7: whenever `construct_parameters` succeeds, the resulting instance
has `region` absent and `population` equal to the request's population
value (10000 when absent), because the adapter always supplies
`population` explicitly and never supplies `region`. -/
theorem construct_parameters_population_branch (today : PyDate)
    (req : RequestData)
    (h : (construct_parameters today req).isOk = true) :
    resultRegion (construct_parameters today req) = some none ∧
    resultPopulation (construct_parameters today req) =
      some (req.population.getD 10000) := by
  cases hc : construct_parameters today req with
  | error e =>
    rw [hc] at h
    cases h
  | ok q =>
    have hq : construct_parameters today req = .ok q := hc
    rw [construct_parameters] at hq
    rw [exceptBindOkIff] at hq
    obtain ⟨dfh, hdfh, hq⟩ := hq
    obtain ⟨hr, hp⟩ := init_ok_pop_inv _ (req.population.getD 10000) q rfl hq
    simp [resultRegion, resultPopulation, Except.toOption, hr, hp]

/-- C7 (witness): a concrete request on which the adapter succeeds, with
no population key, yielding population 10000 and region absent. -/
theorem construct_parameters_population_branch_witness :
    resultRegion (construct_parameters sampleToday requestWithValidDays) =
      some none ∧
    resultPopulation (construct_parameters sampleToday requestWithValidDays) =
      some 10000 :=
  construct_parameters_population_branch sampleToday requestWithValidDays
    (by decide)

/-- C8: the `Rate` validator succeeds exactly on values in [0, 1],
returning the value unchanged on success, and fails on every value
outside that interval. -/
theorem rate_validator_characterization (v : ℚ) :
    (0 ≤ v ∧ v ≤ 1 → Rate v = .ok v) ∧
    (¬ (0 ≤ v ∧ v ≤ 1) → (Rate v).isOk = false) ∧
    (∀ w, Rate v = .ok w → w = v) := by
  refine ⟨fun h => Rate_ok h.1 h.2, fun h => ?_, fun w hw => (Rate_ok_inv hw).2⟩
  rw [Rate, if_neg h]
  rfl

/-- C8 (witness): `Rate` accepts 1 and rejects 2. -/
theorem rate_validator_characterization_witness :
    Rate 1 = .ok 1 ∧ (Rate 2).isOk = false :=
  ⟨(rate_validator_characterization 1).1 (by decide),
   (rate_validator_characterization 2).2.1 (by decide)⟩

/-- C9: construction is deterministic — two successful constructions from
identical arguments agree on every attribute. -/
theorem params_construction_deterministic (args : ParametersArgs)
    (p q : Parameters) (hp : Parameters.init args = .ok p)
    (hq : Parameters.init args = .ok q) :
    p.current_hospitalized = q.current_hospitalized ∧
    p.relative_contact_rate = q.relative_contact_rate ∧
    p.hospitalized = q.hospitalized ∧ p.icu = q.icu ∧
    p.ventilated = q.ventilated ∧ p.region = q.region ∧
    p.population = q.population ∧ p.current_date = q.current_date ∧
    p.date_first_hospitalized = q.date_first_hospitalized ∧
    p.doubling_time = q.doubling_time ∧
    p.infectious_days = q.infectious_days ∧
    p.market_share = q.market_share ∧ p.max_y_axis = q.max_y_axis ∧
    p.n_days = q.n_days ∧ p.recovered = q.recovered ∧
    p.labels = q.labels ∧ p.dispositions = q.dispositions := by
  rw [hp] at hq
  replace hq := Except.ok.inj hq
  subst hq
  exact ⟨rfl, rfl, rfl, rfl, rfl, rfl, rfl, rfl, rfl, rfl, rfl, rfl, rfl, rfl,
    rfl, rfl, rfl⟩

/-- C9 (witness): the determinism theorem applied to the concrete
construction from `argsGood`, whose result is `paramsGoodResult`. -/
theorem params_construction_deterministic_witness :
    paramsGoodResult.current_hospitalized =
      paramsGoodResult.current_hospitalized ∧
    paramsGoodResult.relative_contact_rate =
      paramsGoodResult.relative_contact_rate ∧
    paramsGoodResult.hospitalized = paramsGoodResult.hospitalized ∧
    paramsGoodResult.icu = paramsGoodResult.icu ∧
    paramsGoodResult.ventilated = paramsGoodResult.ventilated ∧
    paramsGoodResult.region = paramsGoodResult.region ∧
    paramsGoodResult.population = paramsGoodResult.population ∧
    paramsGoodResult.current_date = paramsGoodResult.current_date ∧
    paramsGoodResult.date_first_hospitalized =
      paramsGoodResult.date_first_hospitalized ∧
    paramsGoodResult.doubling_time = paramsGoodResult.doubling_time ∧
    paramsGoodResult.infectious_days = paramsGoodResult.infectious_days ∧
    paramsGoodResult.market_share = paramsGoodResult.market_share ∧
    paramsGoodResult.max_y_axis = paramsGoodResult.max_y_axis ∧
    paramsGoodResult.n_days = paramsGoodResult.n_days ∧
    paramsGoodResult.recovered = paramsGoodResult.recovered ∧
    paramsGoodResult.labels = paramsGoodResult.labels ∧
    paramsGoodResult.dispositions = paramsGoodResult.dispositions :=
  params_construction_deterministic argsGood paramsGoodResult paramsGoodResult
    (by decide) (by decide)

/-- C10: even when a keyword argument is itself named `population`, the
constructed instance's `population` attribute equals the sum of all
supplied values, because the running total is assigned last and
overwrites the attribute set from the supplied key. -/
theorem regions_population_overwrites (kwargs : List (String × ℚ)) (v : ℚ)
    (hmem : ("population", v) ∈ kwargs) :
    (Regions.init kwargs).getattr "population" = some (sumValues kwargs) ∧
    (Regions.init kwargs).population = sumValues kwargs :=
  ⟨Regions_getattr_population kwargs, Regions_population_init kwargs⟩

/-- C10 (witness): `Regions(population=5, b=1)` reads back 6, the sum,
not the supplied 5. -/
theorem regions_population_overwrites_witness :
    (Regions.init [("population", 5), ("b", 1)]).getattr "population" =
      some 6 ∧
    (Regions.init [("population", 5), ("b", 1)]).population = 6 := by
  obtain ⟨h1, h2⟩ :=
    regions_population_overwrites [("population", 5), ("b", 1)] 5 (by decide)
  constructor
  · rw [h1]
    simp only [sumValues, List.foldl, Option.some.injEq]
    norm_num
  · rw [h2]
    simp only [sumValues, List.foldl]
    norm_num
